import Mathlib

/-!
Verification of the py2neo command-line tool (`py2neo/cli/tool.py`).

The file shallowly embeds the dispatch logic of `Py2neoCommandLineTool`:
the slash-command registry, `run_command`, `runsource`, `prompt` and `use`.
External collaborators that the tool only consumes through narrow
interfaces are abstracted as oracle parameters:

* `starts_like_cypher` (from `py2neo.cypher.lang`, not part of the file
  under study) is a `String → Bool` oracle `slc`;
* `shlex_split` (Python standard library) is a
  `String → Option (List String)` oracle `tokenize`, where `none` models
  the `ValueError` that `shlex.split` raises on malformed quoting;
* the query-execution path (`RunCypherCommand(...).execute()`) is a
  `String → QueryOutcome` oracle, which either returns normally or raises
  a `CypherSyntaxError` carrying a message string;
* `Environment.connect` is summarised by a `ConnectOutcome`: success,
  the driver `ServiceUnavailable` error, or some other propagating
  failure.

The Python string primitives used by the tool (`str.lstrip`,
`str.startswith`, slicing, `str.lower`) are embedded as structurally
recursive functions on the character list of a `String`, so that every
definition evaluates by kernel reduction on concrete inputs.

Observable behaviour (writes to the console sink, handlers executed,
queries attempted) is recorded in an `Effects` record, and exceptions
escaping `runsource` are a distinguished `Outcome.raised` constructor,
so claims about error propagation and the blank-separator discipline can
be stated exactly.
-/

namespace Py2neoCLI

/-! ### Python string primitives, by structural recursion on characters -/

/-- Drop leading whitespace characters (`str.lstrip()` with no
argument). -/
def lstripChars : List Char → List Char
  | [] => []
  | c :: cs => if c.isWhitespace then lstripChars cs else c :: cs

/-- Python `source.lstrip()`. -/
def lstrip (s : String) : String := ⟨lstripChars s.data⟩

/-- Character-list version of `str.startswith`. -/
def startsWithChars : List Char → List Char → Bool
  | _, [] => true
  | [], _ :: _ => false
  | c :: cs, p :: ps => c == p && startsWithChars cs ps

/-- Python `s.startswith(p)`. -/
def strStartsWith (s p : String) : Bool := startsWithChars s.data p.data

/-- Python `len(s)` (a count of characters, i.e. code points). -/
def strLength (s : String) : Nat := s.data.length

/-- Python `s[n:]` (drop the first `n` characters). -/
def strDrop (s : String) (n : Nat) : String := ⟨s.data.drop n⟩

/-- Python `s.lower()` restricted to ASCII, as applied to command
keywords. -/
def strToLower (s : String) : String := ⟨s.data.map Char.toLower⟩

/-! ### The data model of the tool -/

/-- The closed set of command variants registered in
`Py2neoCommandLineTool.commands` (plus the `HelpCommand` added in
`__init__`).  Each constructor names one Python command class. -/
inductive CommandKind where
  | beginTransactionCommand
  | commitTransactionCommand
  | rollbackTransactionCommand
  | listConnectionsCommand
  | connectCommand
  | exitCommand
  | playCypherCommand
  | printDBMSDetailsCommand
  | listParameterSetsCommand
  | appendParameterSetCommand
  | clearParameterSetsCommand
  | printConfigCommand
  | helpCommand
  deriving DecidableEq, Repr

/-- The class-level registry literal of `Py2neoCommandLineTool.commands`
(`tool.py` lines 69–84), in source order.  A pattern is the tuple of its
literal first token followed by placeholder slots; dict insertion order
is preserved. -/
def base_commands : List (List String × CommandKind) :=
  [ (["begin"], .beginTransactionCommand),
    (["commit"], .commitTransactionCommand),
    (["rollback"], .rollbackTransactionCommand),
    (["connect"], .listConnectionsCommand),
    (["connect", "<uri>"], .connectCommand),
    (["connect", "<uri>", "<user>", "<password>"], .connectCommand),
    (["exit"], .exitCommand),
    (["play"], .playCypherCommand),
    (["dbms"], .printDBMSDetailsCommand),
    (["params"], .listParameterSetsCommand),
    (["push"], .appendParameterSetCommand),
    (["clear"], .clearParameterSetsCommand),
    (["config"], .printConfigCommand),
    (["config", "<search_term>"], .printConfigCommand) ]

/-- The registry after `__init__` has run: `commands[("help",)]` and
`commands[("help", "<topic>")]` are inserted at the end
(`tool.py` lines 98–108). -/
def commands : List (List String × CommandKind) :=
  base_commands ++ [ (["help"], .helpCommand), (["help", "<topic>"], .helpCommand) ]

/-- Observable effects of one `runsource` cycle: error-channel lines
written via `console.write_error`, blank lines written via
`console.write()`, command handlers constructed and executed (with the
argument tokens they received), and sources for which a
`RunCypherCommand` execution was attempted. -/
structure Effects where
  errors : List String
  blank_lines : Nat
  dispatched : List (CommandKind × List String)
  queries_run : List String
  deriving DecidableEq, Repr

/-- No effect yet. -/
def emptyEffects : Effects := ⟨[], 0, [], []⟩

/-- Python exceptions that can escape `run_command` (and hence
`runsource`): `IndexError` from `tokens[0]` on an empty token list, and
`ValueError` from `shlex.split` on malformed quoting. -/
inductive PyError where
  | indexError
  | valueError
  deriving DecidableEq, Repr

/-- Result of `runsource`: either a normal return of `more` (1 signals
continuation) together with the effects produced, or an exception that
escaped, together with the effects produced before it was raised. -/
inductive Outcome where
  | ret (more : Nat) (eff : Effects)
  | raised (e : PyError) (eff : Effects)
  deriving DecidableEq, Repr

/-- The effects recorded in an outcome. -/
def Outcome.effects : Outcome → Effects
  | .ret _ eff => eff
  | .raised _ eff => eff

/-- Outcome of executing a buffer through the query path
(`RunCypherCommand(self.env, source).execute()`): normal return, or a
`CypherSyntaxError` whose first argument is the server message. -/
inductive QueryOutcome where
  | ok
  | cypherSyntaxError (message : String)
  deriving DecidableEq, Repr

/-! ### The operations of the tool -/

/-- Effects of a successful dispatch: the matched command class is
constructed with the remaining tokens and executed once. -/
def dispatchEffects (k : CommandKind) (args : List String) : Effects :=
  ⟨[], 0, [(k, args)], []⟩

/-- Effects of falling off the dispatch loop: the single error line
`Syntax Error: Invalid slash command '<token>'` naming the (lowercased)
first token (`tool.py` line 183). -/
def invalidCommandEffects (tok0 : String) : Effects :=
  ⟨["Syntax Error: Invalid slash command \x27" ++ tok0 ++ "\x27"], 0, [], []⟩

/-- The `for pattern, command_class in self.commands.items()` loop of
`run_command` (`tool.py` lines 177–182): take the first pattern whose
first element equals `tok0` and whose length equals the token count `n`;
construct and execute its command class on `args`; report an invalid
slash command if no pattern matches. -/
def dispatchLoop (tok0 : String) (n : Nat) (args : List String) :
    List (List String × CommandKind) → Effects
  | [] => invalidCommandEffects tok0
  | (pattern, command_class) :: rest =>
      if tok0 == pattern.headI && n == pattern.length then
        dispatchEffects command_class args
      else
        dispatchLoop tok0 n args rest

/-- Embeds `Py2neoCommandLineTool.run_command` (`tool.py` lines 174–183).
`tokenize` stands for `shlex.split`; `none` is its `ValueError`.
`tokens[0]` on an empty token list raises `IndexError`; otherwise the
first token is lowercased in place and the dispatch loop runs. -/
def run_command (tokenize : String → Option (List String)) (source : String) :
    Except PyError Effects :=
  match tokenize source with
  | none => .error .valueError
  | some [] => .error .indexError
  | some (t0 :: rest) =>
      .ok (dispatchLoop (strToLower t0) (rest.length + 1) rest commands)

/-- Merge the effects of `run_command` into a `runsource` cycle that then
writes the blank separator line. -/
def afterCommand (eff : Effects) : Effects :=
  ⟨eff.errors, eff.blank_lines + 1, eff.dispatched, eff.queries_run⟩

/-- Body of `Py2neoCommandLineTool.runsource` after the initial
`source = source.lstrip()` rebinding (`tool.py` lines 152–172): empty
input does nothing; input starting with the command prefix goes to
`run_command` with the prefix removed (an exception escaping
`run_command` skips the trailing `console.write()` and propagates);
cypher-like input runs the query path, where a `CypherSyntaxError` whose
message starts with one of the two truncation phrasings sets `more = 1`
and any other message is reported; all other input is an invalid-input
error.  A blank line is written exactly when `more` stayed 0 and no
exception escaped. -/
def runsourceStripped (cmdpfx : String) (slc : String → Bool)
    (tokenize : String → Option (List String))
    (execQuery : String → QueryOutcome) (source : String) : Outcome :=
  if source = "" then
    .ret 0 ⟨[], 1, [], []⟩
  else if strStartsWith source cmdpfx then
    match run_command tokenize (strDrop source (strLength cmdpfx)) with
    | .error e => .raised e emptyEffects
    | .ok eff => .ret 0 (afterCommand eff)
  else if slc source then
    match execQuery source with
    | .ok => .ret 0 ⟨[], 1, [], [source]⟩
    | .cypherSyntaxError message =>
        if strStartsWith message "Unexpected end of input"
            || strStartsWith message "Query cannot conclude with" then
          .ret 1 ⟨[], 0, [], [source]⟩
        else
          .ret 0 ⟨["Syntax Error: " ++ message], 1, [], [source]⟩
  else
    .ret 0 ⟨["Syntax Error: Invalid input"], 1, [], []⟩

/-- Embeds `Py2neoCommandLineTool.runsource` (`tool.py` lines 151–172).
`cmdpfx` is `self.env.command_prefix`, `slc` is `starts_like_cypher`,
`tokenize` is `shlex.split` and `execQuery` is the query path.  The
source is first stripped of leading whitespace, then classified by
`runsourceStripped`. -/
def runsource (cmdpfx : String) (slc : String → Bool)
    (tokenize : String → Option (List String))
    (execQuery : String → QueryOutcome) (source0 : String) : Outcome :=
  runsourceStripped cmdpfx slc tokenize execQuery (lstrip source0)

/-- Embeds `Py2neoCommandLineTool.prompt` (`tool.py` lines 141–146):
`colour = 31 if self.env.has_transaction() else 32`, continuation marker
`...` when `self.buffer` is non-empty, `>>>` otherwise. -/
def prompt (hasTransaction : Bool) (bufferNonempty : Bool) : String :=
  let colour : Nat := if hasTransaction then 31 else 32
  if bufferNonempty then
    "\x01\x1b[" ++ toString colour ++ "m\x02...\x01\x1b[0m\x02 "
  else
    "\x01\x1b[" ++ toString colour ++ ";1m\x02>>>\x01\x1b[0m\x02 "

/-- Embeds `NEO4J_URI = getenv("NEO4J_URI", "localhost")` (`tool.py`
line 54); `envv` is the process environment. -/
def NEO4J_URI (envv : String → Option String) : String :=
  (envv "NEO4J_URI").getD "localhost"

/-- Embeds `NEO4J_USER = getenv("NEO4J_USER", "neo4j")` (`tool.py`
line 55). -/
def NEO4J_USER (envv : String → Option String) : String :=
  (envv "NEO4J_USER").getD "neo4j"

/-- Embeds `NEO4J_PASSWORD = getenv("NEO4J_PASSWORD")` (`tool.py`
line 56); no default, so absent means `None`. -/
def NEO4J_PASSWORD (envv : String → Option String) : Option String :=
  envv "NEO4J_PASSWORD"

/-- Outcome of `self.env.connect(...)` at startup: success, the driver
`ServiceUnavailable` error (the only exception `use` catches), or some
other failure that propagates out of `use`. -/
inductive ConnectOutcome where
  | ok
  | serviceUnavailable
  | otherFailure
  deriving DecidableEq, Repr

/-- One observable step of `Py2neoCommandLineTool.use`. -/
inductive UseEvent where
  | connectAttempt (uri user : String) (password : Option String)
  | exitProcess (status : Nat)
  | interactiveLoop
  | ranLine (line : String)
  deriving DecidableEq, Repr

/-- Embeds `Py2neoCommandLineTool.use` (`tool.py` lines 110–121) as an
event trace.  `args` is `self.args` (the process argument list:
`__init__` sets `self.env.interactive` to `len(self.args) == 1`).  The
startup connection is attempted first; `ServiceUnavailable` triggers
`exit(1)`; any other connect failure propagates (the trace simply
stops); on success the tool either enters the interactive loop or feeds
each of `self.args[1:]` to `runsource` in order. -/
def use (envv : String → Option String) (args : List String)
    (conn : ConnectOutcome) : List UseEvent :=
  UseEvent.connectAttempt (NEO4J_URI envv) (NEO4J_USER envv) (NEO4J_PASSWORD envv) ::
    match conn with
    | .serviceUnavailable => [.exitProcess 1]
    | .otherFailure => []
    | .ok =>
        if args.length == 1 then
          [.interactiveLoop]
        else
          (args.drop 1).map .ranLine

/-! ## Helper lemmas -/

/-- The dispatch loop never writes a blank line. -/
theorem dispatchLoop_blank_lines (tok0 : String) (n : Nat) (args : List String) :
    ∀ l : List (List String × CommandKind), (dispatchLoop tok0 n args l).blank_lines = 0
  | [] => rfl
  | (pattern, command_class) :: rest => by
      by_cases h : (tok0 == pattern.headI && n == pattern.length) = true
      · simp only [dispatchLoop, if_pos h]; rfl
      · simp only [dispatchLoop, if_neg h]
        exact dispatchLoop_blank_lines tok0 n args rest

/-- The dispatch loop never runs the query path. -/
theorem dispatchLoop_queries_run (tok0 : String) (n : Nat) (args : List String) :
    ∀ l : List (List String × CommandKind), (dispatchLoop tok0 n args l).queries_run = []
  | [] => rfl
  | (pattern, command_class) :: rest => by
      by_cases h : (tok0 == pattern.headI && n == pattern.length) = true
      · simp only [dispatchLoop, if_pos h]; rfl
      · simp only [dispatchLoop, if_neg h]
        exact dispatchLoop_queries_run tok0 n args rest

/-- Effects coming out of a non-raising `run_command` write no blank line
and run no query. -/
theorem run_command_ok_effects (tokenize : String → Option (List String))
    (source : String) (eff : Effects) (h : run_command tokenize source = .ok eff) :
    eff.blank_lines = 0 ∧ eff.queries_run = [] := by
  unfold run_command at h
  match htok : tokenize source with
  | none => rw [htok] at h; cases h
  | some [] => rw [htok] at h; cases h
  | some (t0 :: rest) =>
      rw [htok] at h
      cases h
      exact ⟨dispatchLoop_blank_lines _ _ _ _, dispatchLoop_queries_run _ _ _ _⟩

/-- The first-match loop computes the same answer as `List.find?` with
the match predicate. -/
theorem dispatchLoop_eq_find (tok0 : String) (n : Nat) (args : List String)
    (l : List (List String × CommandKind)) :
    dispatchLoop tok0 n args l =
      match l.find? (fun p => tok0 == p.1.headI && n == p.1.length) with
      | some p => dispatchEffects p.2 args
      | none => invalidCommandEffects tok0 := by
  induction l with
  | nil => rfl
  | cons hd tl ih =>
      obtain ⟨pattern, k⟩ := hd
      rw [List.find?_cons]
      by_cases h : (tok0 == pattern.headI && n == pattern.length) = true
      · simp [dispatchLoop, h]
      · rw [Bool.not_eq_true] at h
        simp [dispatchLoop, h, ih]

/-- Distinct entries of the registry never share both first literal and
arity (checked over the concrete 16-entry table). -/
theorem commands_key_unique : ∀ p ∈ commands, ∀ q ∈ commands,
    p.1.headI = q.1.headI → p.1.length = q.1.length → p = q := by decide

/-- On a list whose matching element is unique, `List.find?` does not
depend on the traversal order. -/
theorem find_respects_perm {α : Type} (p : α → Bool) {l l' : List α}
    (hperm : l.Perm l')
    (huniq : ∀ a ∈ l, ∀ b ∈ l, p a = true → p b = true → a = b) :
    l.find? p = l'.find? p := by
  cases hf : l.find? p with
  | none =>
      symm
      rw [List.find?_eq_none] at hf ⊢
      intro x hx
      exact hf x (hperm.mem_iff.mpr hx)
  | some x =>
      have hx : x ∈ l := List.mem_of_find?_eq_some hf
      have hpx : p x = true := List.find?_some hf
      have hsome : (l'.find? p).isSome := by
        rw [List.find?_isSome]
        exact ⟨x, hperm.mem_iff.mp hx, hpx⟩
      obtain ⟨y, hy⟩ := Option.isSome_iff_exists.mp hsome
      have hyl : y ∈ l := hperm.mem_iff.mpr (List.mem_of_find?_eq_some hy)
      have hpy : p y = true := List.find?_some hy
      rw [hy]
      exact congrArg some (huniq x hx y hyl hpx hpy)

/-- On non-empty, non-command, cypher-like input whose execution
succeeds, `runsource` completes the cycle quietly. -/
theorem runsource_query_ok (cmdpfx : String) (slc : String → Bool)
    (tokenize : String → Option (List String)) (execQuery : String → QueryOutcome)
    (source0 : String)
    (h1 : lstrip source0 ≠ "")
    (h2 : strStartsWith (lstrip source0) cmdpfx = false)
    (h3 : slc (lstrip source0) = true)
    (h4 : execQuery (lstrip source0) = .ok) :
    runsource cmdpfx slc tokenize execQuery source0 =
      .ret 0 ⟨[], 1, [], [lstrip source0]⟩ := by
  unfold runsource runsourceStripped
  simp only [if_neg h1, h2, h3, h4, Bool.false_eq_true, if_false, if_true]

/-- On non-empty, non-command, cypher-like input whose execution raises
a `CypherSyntaxError`, `runsource` branches on the truncation test. -/
theorem runsource_query_syntax_error (cmdpfx : String) (slc : String → Bool)
    (tokenize : String → Option (List String)) (execQuery : String → QueryOutcome)
    (source0 message : String)
    (h1 : lstrip source0 ≠ "")
    (h2 : strStartsWith (lstrip source0) cmdpfx = false)
    (h3 : slc (lstrip source0) = true)
    (h4 : execQuery (lstrip source0) = .cypherSyntaxError message) :
    runsource cmdpfx slc tokenize execQuery source0 =
      if strStartsWith message "Unexpected end of input"
          || strStartsWith message "Query cannot conclude with" then
        .ret 1 ⟨[], 0, [], [lstrip source0]⟩
      else
        .ret 0 ⟨["Syntax Error: " ++ message], 1, [], [lstrip source0]⟩ := by
  unfold runsource runsourceStripped
  simp only [if_neg h1, h2, h3, h4, Bool.false_eq_true, if_false, if_true]

/-! ## Claims -/

/-- C9: the prompt is a function of exactly two booleans: colour code 31
when a transaction is active and 32 when not, and marker `...` exactly
when the buffer is non-empty, `>>>` otherwise. -/
theorem prompt_two_state : ∀ hasTransaction bufferNonempty : Bool,
    prompt hasTransaction bufferNonempty =
      "\x01\x1b[" ++ toString (if hasTransaction then (31 : Nat) else 32) ++
        (if bufferNonempty then "m\x02" else ";1m\x02") ++
        (if bufferNonempty then "..." else ">>>") ++
        "\x01\x1b[0m\x02 " := by decide

/-- C8: the registry (help patterns included) has pairwise-distinct
(first literal, element count) keys, so the dispatch loop computes the
same result on any reordering of the registry. -/
theorem commands_registry_unambiguous :
    ((commands.map (fun p => (p.1.headI, p.1.length))).Nodup)
    ∧ ∀ l, commands.Perm l → ∀ tok0 n args,
        dispatchLoop tok0 n args l = dispatchLoop tok0 n args commands := by
  constructor
  · decide
  · intro l hperm tok0 n args
    rw [dispatchLoop_eq_find, dispatchLoop_eq_find]
    have huniq : ∀ a ∈ commands, ∀ b ∈ commands,
        (tok0 == a.1.headI && n == a.1.length) = true →
        (tok0 == b.1.headI && n == b.1.length) = true → a = b := by
      intro a ha b hb hpa hpb
      rw [Bool.and_eq_true, beq_iff_eq, beq_iff_eq] at hpa hpb
      exact commands_key_unique a ha b hb (hpa.1 ▸ hpb.1.symm ▸ rfl)
        (hpa.2 ▸ hpb.2.symm ▸ rfl)
    rw [find_respects_perm _ hperm huniq]

/-- C8 witness: dispatching over the reversed registry agrees with
dispatching over the registry itself. -/
theorem commands_registry_unambiguous_witness :
    dispatchLoop "begin" 1 [] commands.reverse = dispatchLoop "begin" 1 [] commands :=
  commands_registry_unambiguous.2 commands.reverse
    (List.reverse_perm commands).symm "begin" 1 []

/-- C1: on a cypher-like buffer, `runsource` signals continuation
(returns 1, writes no error and no separator) exactly when the query
path raises a `CypherSyntaxError` whose message starts with one of the
two truncation phrasings; any other syntax error is reported as a single
`Syntax Error: <message>` line and 0 is returned. -/
theorem runsource_continuation_iff (cmdpfx : String) (slc : String → Bool)
    (tokenize : String → Option (List String)) (execQuery : String → QueryOutcome)
    (source0 : String)
    (h1 : lstrip source0 ≠ "")
    (h2 : strStartsWith (lstrip source0) cmdpfx = false)
    (h3 : slc (lstrip source0) = true) :
    (runsource cmdpfx slc tokenize execQuery source0
        = .ret 1 ⟨[], 0, [], [lstrip source0]⟩
      ↔ ∃ message, execQuery (lstrip source0) = .cypherSyntaxError message
          ∧ (strStartsWith message "Unexpected end of input"
              || strStartsWith message "Query cannot conclude with") = true)
    ∧ ∀ message, execQuery (lstrip source0) = .cypherSyntaxError message →
        (strStartsWith message "Unexpected end of input"
          || strStartsWith message "Query cannot conclude with") = false →
        runsource cmdpfx slc tokenize execQuery source0
          = .ret 0 ⟨["Syntax Error: " ++ message], 1, [], [lstrip source0]⟩ := by
  constructor
  · constructor
    · intro hr
      cases hq : execQuery (lstrip source0) with
      | ok =>
          rw [runsource_query_ok cmdpfx slc tokenize execQuery source0 h1 h2 h3 hq] at hr
          simp at hr
      | cypherSyntaxError message =>
          rw [runsource_query_syntax_error cmdpfx slc tokenize execQuery source0
            message h1 h2 h3 hq] at hr
          by_cases ht : (strStartsWith message "Unexpected end of input"
              || strStartsWith message "Query cannot conclude with") = true
          · exact ⟨message, rfl, ht⟩
          · rw [if_neg ht] at hr
            simp at hr
    · rintro ⟨message, hq, ht⟩
      rw [runsource_query_syntax_error cmdpfx slc tokenize execQuery source0
        message h1 h2 h3 hq, if_pos ht]
  · intro message hq ht
    rw [runsource_query_syntax_error cmdpfx slc tokenize execQuery source0
      message h1 h2 h3 hq, if_neg (by simp [ht])]

/-- C1 witness: a truncation-phrased syntax error yields continuation. -/
theorem runsource_continuation_iff_witness :
    runsource "/" (fun _ => true) (fun _ => some [])
        (fun _ => .cypherSyntaxError "Unexpected end of input: oops") "MATCH (n"
      = .ret 1 ⟨[], 0, [], [lstrip "MATCH (n"]⟩ :=
  (runsource_continuation_iff "/" (fun _ => true) (fun _ => some [])
      (fun _ => .cypherSyntaxError "Unexpected end of input: oops") "MATCH (n"
      (by decide) (by decide) rfl).1.mpr
    ⟨"Unexpected end of input: oops", rfl, by decide⟩

/-- C4: every normal return of `runsource` writes the blank separator
line exactly once when not signalling continuation, and not at all when
signalling continuation. -/
theorem runsource_separator (cmdpfx : String) (slc : String → Bool)
    (tokenize : String → Option (List String)) (execQuery : String → QueryOutcome)
    (source0 : String) (m : Nat) (eff : Effects)
    (h : runsource cmdpfx slc tokenize execQuery source0 = .ret m eff) :
    (m = 0 ∧ eff.blank_lines = 1) ∨ (m = 1 ∧ eff.blank_lines = 0) := by
  unfold runsource runsourceStripped at h
  split at h
  · simp only [Outcome.ret.injEq] at h
    obtain ⟨rfl, rfl⟩ := h
    exact Or.inl ⟨rfl, rfl⟩
  · split at h
    · split at h
      · simp at h
      · rename_i eff0 hrc
        simp only [Outcome.ret.injEq] at h
        obtain ⟨rfl, rfl⟩ := h
        refine Or.inl ⟨rfl, ?_⟩
        have hb := (run_command_ok_effects _ _ _ hrc).1
        simp [afterCommand, hb]
    · split at h
      · split at h
        · simp only [Outcome.ret.injEq] at h
          obtain ⟨rfl, rfl⟩ := h
          exact Or.inl ⟨rfl, rfl⟩
        · split at h
          · simp only [Outcome.ret.injEq] at h
            obtain ⟨rfl, rfl⟩ := h
            exact Or.inr ⟨rfl, rfl⟩
          · simp only [Outcome.ret.injEq] at h
            obtain ⟨rfl, rfl⟩ := h
            exact Or.inl ⟨rfl, rfl⟩
      · simp only [Outcome.ret.injEq] at h
        obtain ⟨rfl, rfl⟩ := h
        exact Or.inl ⟨rfl, rfl⟩

/-- C4 witness: the empty-input cycle returns 0 with one blank line. -/
theorem runsource_separator_witness :
    ((0 : Nat) = 0 ∧ (Effects.blank_lines ⟨[], 1, [], []⟩) = 1)
    ∨ ((0 : Nat) = 1 ∧ (Effects.blank_lines ⟨[], 1, [], []⟩) = 0) :=
  runsource_separator "/" (fun _ => false) (fun _ => some []) (fun _ => .ok)
    "" 0 ⟨[], 1, [], []⟩ (by decide)

/-- C3: `runsource` classifies the stripped line in fixed precedence
order: empty input runs nothing; a command-prefixed line always goes
through `run_command` on the prefix-stripped remainder and never through
the query path; otherwise cypher-like input goes through the query path
and no command handler runs; anything else is the single
`Syntax Error: Invalid input` report with no handler run. -/
theorem runsource_classification (cmdpfx : String) (slc : String → Bool)
    (tokenize : String → Option (List String)) (execQuery : String → QueryOutcome)
    (source0 : String) :
    (lstrip source0 = "" →
        runsource cmdpfx slc tokenize execQuery source0 = .ret 0 ⟨[], 1, [], []⟩)
    ∧ (lstrip source0 ≠ "" → strStartsWith (lstrip source0) cmdpfx = true →
        (runsource cmdpfx slc tokenize execQuery source0 =
          match run_command tokenize (strDrop (lstrip source0) (strLength cmdpfx)) with
          | .error e => .raised e emptyEffects
          | .ok eff => .ret 0 (afterCommand eff))
        ∧ (runsource cmdpfx slc tokenize execQuery source0).effects.queries_run = [])
    ∧ (lstrip source0 ≠ "" → strStartsWith (lstrip source0) cmdpfx = false →
        slc (lstrip source0) = true →
        (runsource cmdpfx slc tokenize execQuery source0).effects.queries_run
            = [lstrip source0]
        ∧ (runsource cmdpfx slc tokenize execQuery source0).effects.dispatched = [])
    ∧ (lstrip source0 ≠ "" → strStartsWith (lstrip source0) cmdpfx = false →
        slc (lstrip source0) = false →
        runsource cmdpfx slc tokenize execQuery source0
          = .ret 0 ⟨["Syntax Error: Invalid input"], 1, [], []⟩) := by
  refine ⟨?_, ?_, ?_, ?_⟩
  · intro h0
    unfold runsource runsourceStripped
    rw [if_pos h0]
  · intro h1 h2
    have hcmd : runsource cmdpfx slc tokenize execQuery source0 =
        match run_command tokenize (strDrop (lstrip source0) (strLength cmdpfx)) with
        | .error e => .raised e emptyEffects
        | .ok eff => .ret 0 (afterCommand eff) := by
      unfold runsource runsourceStripped
      rw [if_neg h1, if_pos h2]
    refine ⟨hcmd, ?_⟩
    rw [hcmd]
    cases hrc : run_command tokenize (strDrop (lstrip source0) (strLength cmdpfx)) with
    | error e => rfl
    | ok eff0 => exact (run_command_ok_effects _ _ _ hrc).2
  · intro h1 h2 h3
    cases hq : execQuery (lstrip source0) with
    | ok =>
        rw [runsource_query_ok cmdpfx slc tokenize execQuery source0 h1 h2 h3 hq]
        exact ⟨rfl, rfl⟩
    | cypherSyntaxError message =>
        rw [runsource_query_syntax_error cmdpfx slc tokenize execQuery source0
          message h1 h2 h3 hq]
        by_cases ht : (strStartsWith message "Unexpected end of input"
            || strStartsWith message "Query cannot conclude with") = true
        · rw [if_pos ht]; exact ⟨rfl, rfl⟩
        · rw [if_neg ht]; exact ⟨rfl, rfl⟩
  · intro h1 h2 h3
    unfold runsource runsourceStripped
    simp only [if_neg h1, h2, h3, Bool.false_eq_true, if_false]

/-- C3 witness: non-command, non-cypher input is the invalid-input
report. -/
theorem runsource_classification_witness :
    runsource "/" (fun _ => false) (fun _ => some []) (fun _ => .ok) "nonsense"
      = .ret 0 ⟨["Syntax Error: Invalid input"], 1, [], []⟩ :=
  (runsource_classification "/" (fun _ => false) (fun _ => some []) (fun _ => .ok)
      "nonsense").2.2.2 (by decide) (by decide) rfl

/-- C2: on a line whose shell tokenization yields at least one token,
`run_command` lowercases exactly the first token, executes the first
registry pattern agreeing with it in first literal and element count on
the unchanged remaining tokens, and on no match reports the invalid
slash command naming the lowercased token — returning normally either
way. -/
theorem run_command_dispatch (tokenize : String → Option (List String))
    (source t0 : String) (rest : List String)
    (h : tokenize source = some (t0 :: rest)) :
    run_command tokenize source =
      .ok (match commands.find?
            (fun p => strToLower t0 == p.1.headI && (rest.length + 1) == p.1.length) with
          | some p => dispatchEffects p.2 rest
          | none => invalidCommandEffects (strToLower t0)) := by
  unfold run_command
  rw [h]
  show Except.ok (dispatchLoop (strToLower t0) (rest.length + 1) rest commands) = _
  rw [dispatchLoop_eq_find]

/-- C2 witness: `/CONNECT bolt alice secret` dispatches the three-slot
connect pattern with the arguments unchanged. -/
theorem run_command_dispatch_witness :
    run_command (fun _ => some ["CONNECT", "bolt", "alice", "secret"]) "ignored"
      = .ok (dispatchEffects .connectCommand ["bolt", "alice", "secret"]) :=
  (run_command_dispatch (fun _ => some ["CONNECT", "bolt", "alice", "secret"])
      "ignored" "CONNECT" ["bolt", "alice", "secret"] rfl).trans (by rfl)

/-- C7 (amended): whenever shell tokenization succeeds with at least one
token, `run_command` returns normally (dispatch or a reported error);
but when tokenization itself fails, the `ValueError` is not caught and
escapes `runsource`, with no error line and no separator written. -/
theorem run_command_error_paths :
    (∀ (tokenize : String → Option (List String)) (source t0 : String)
        (rest : List String),
        tokenize source = some (t0 :: rest) →
        ∃ eff, run_command tokenize source = .ok eff)
    ∧ ∀ (cmdpfx : String) (slc : String → Bool)
        (tokenize : String → Option (List String))
        (execQuery : String → QueryOutcome) (source0 : String),
        lstrip source0 ≠ "" →
        strStartsWith (lstrip source0) cmdpfx = true →
        tokenize (strDrop (lstrip source0) (strLength cmdpfx)) = none →
        runsource cmdpfx slc tokenize execQuery source0
          = .raised .valueError emptyEffects := by
  constructor
  · intro tokenize source t0 rest h
    refine ⟨dispatchLoop (strToLower t0) (rest.length + 1) rest commands, ?_⟩
    unfold run_command
    rw [h]
  · intro cmdpfx slc tokenize execQuery source0 h1 h2 htok
    unfold runsource runsourceStripped
    rw [if_neg h1, if_pos h2]
    unfold run_command
    rw [htok]

/-- C7 counterexample: with a tokenizer behaving like `shlex.split` on an
unbalanced quote (raising `ValueError`), the exception escapes
`runsource` instead of being caught and reported. -/
theorem run_command_uncaught_counterexample :
    runsource "/" (fun _ => true) (fun _ => none) (fun _ => .ok) "/play \x27oops"
      = .raised .valueError emptyEffects := by decide

/-- C7 witness: the amended propagation branch at a concrete input. -/
theorem run_command_error_paths_witness :
    runsource "/" (fun _ => true) (fun _ => none) (fun _ => .ok) "/exit \x27"
      = .raised .valueError emptyEffects :=
  run_command_error_paths.2 "/" (fun _ => true) (fun _ => none) (fun _ => .ok)
    "/exit \x27" (by decide) (by decide) rfl

/-- C10: a line that is the command prefix alone (or prefix plus
whitespace) hands `run_command` text that tokenizes to an empty list;
`tokens[0]` then raises `IndexError`, which escapes `runsource` with no
invalid-slash-command report and no separator. -/
theorem run_command_empty_tokens_crash (cmdpfx : String) (slc : String → Bool)
    (tokenize : String → Option (List String)) (execQuery : String → QueryOutcome)
    (source0 : String)
    (h1 : lstrip source0 ≠ "")
    (h2 : strStartsWith (lstrip source0) cmdpfx = true)
    (htok : tokenize (strDrop (lstrip source0) (strLength cmdpfx)) = some []) :
    runsource cmdpfx slc tokenize execQuery source0
      = .raised .indexError emptyEffects := by
  unfold runsource runsourceStripped
  rw [if_neg h1, if_pos h2]
  unfold run_command
  rw [htok]

/-- C10 witness: the bare `/` line with the empty-string tokenization of
`shlex.split` crashes with `IndexError`. -/
theorem run_command_empty_tokens_crash_witness :
    runsource "/" (fun _ => false) (fun _ => some []) (fun _ => .ok) "/"
      = .raised .indexError emptyEffects :=
  run_command_empty_tokens_crash "/" (fun _ => false) (fun _ => some []) (fun _ => .ok)
    "/" (by decide) (by decide) rfl

/-- C5: with more than one process argument the tool runs in batch mode
after a successful startup connection — each argument after the first
becomes one `runsource` line, in order, and the interactive loop is
never entered; with exactly one argument the interactive loop is
selected. -/
theorem use_batch_mode (envv : String → Option String) (args : List String) :
    (1 < args.length →
        use envv args .ok =
          UseEvent.connectAttempt (NEO4J_URI envv) (NEO4J_USER envv) (NEO4J_PASSWORD envv)
            :: (args.drop 1).map UseEvent.ranLine
        ∧ UseEvent.interactiveLoop ∉ use envv args .ok)
    ∧ (args.length = 1 →
        use envv args .ok =
          [UseEvent.connectAttempt (NEO4J_URI envv) (NEO4J_USER envv) (NEO4J_PASSWORD envv),
           UseEvent.interactiveLoop]) := by
  constructor
  · intro hgt
    have hne : (args.length == 1) = false := by
      rw [beq_eq_false_iff_ne]
      omega
    have hu : use envv args .ok =
        UseEvent.connectAttempt (NEO4J_URI envv) (NEO4J_USER envv) (NEO4J_PASSWORD envv)
          :: (args.drop 1).map UseEvent.ranLine := by
      unfold use
      rw [if_neg (by simp [hne])]
    refine ⟨hu, ?_⟩
    rw [hu]
    intro hmem
    rcases List.mem_cons.mp hmem with hc | hm
    · cases hc
    · obtain ⟨line, _, hline⟩ := List.mem_map.mp hm
      cases hline
  · intro heq
    unfold use
    rw [if_pos (by simp [heq])]

/-- C5 witness: two trailing arguments are run in order, and the
interactive loop is not entered. -/
theorem use_batch_mode_witness :
    use (fun _ => none) ["py2neo", "RETURN 1", "/exit"] .ok =
        [UseEvent.connectAttempt "localhost" "neo4j" none,
         UseEvent.ranLine "RETURN 1", UseEvent.ranLine "/exit"]
    ∧ UseEvent.interactiveLoop ∉ use (fun _ => none) ["py2neo", "RETURN 1", "/exit"] .ok :=
  (use_batch_mode (fun _ => none) ["py2neo", "RETURN 1", "/exit"]).1 (by decide)

/-- C6: `use` attempts the startup connection with the
environment-derived URI, user and password before any input line; it
terminates the process (status 1) exactly when that attempt fails with
`ServiceUnavailable`, entering neither the interactive loop nor batch
dispatch in that case. -/
theorem use_startup_connection (envv : String → Option String) (args : List String)
    (conn : ConnectOutcome) :
    (use envv args conn).head? =
        some (UseEvent.connectAttempt (NEO4J_URI envv) (NEO4J_USER envv)
          (NEO4J_PASSWORD envv))
    ∧ ((∃ s, UseEvent.exitProcess s ∈ use envv args conn) ↔ conn = .serviceUnavailable)
    ∧ (conn = .serviceUnavailable →
        use envv args conn =
          [UseEvent.connectAttempt (NEO4J_URI envv) (NEO4J_USER envv)
            (NEO4J_PASSWORD envv),
           UseEvent.exitProcess 1]) := by
  refine ⟨rfl, ⟨?_, ?_⟩, ?_⟩
  · rintro ⟨s, hs⟩
    cases conn with
    | serviceUnavailable => rfl
    | ok =>
        exfalso
        simp only [use] at hs
        rcases List.mem_cons.mp hs with hc | hm
        · cases hc
        · by_cases h1 : (args.length == 1) = true
          · rw [if_pos h1] at hm
            simp at hm
          · rw [if_neg h1] at hm
            obtain ⟨line, _, hline⟩ := List.mem_map.mp hm
            cases hline
    | otherFailure =>
        exfalso
        simp only [use] at hs
        rcases List.mem_cons.mp hs with hc | hm
        · cases hc
        · simp at hm
  · intro h
    subst h
    exact ⟨1, by simp [use]⟩
  · intro h
    subst h
    rfl

/-- C6 witness: a `ServiceUnavailable` startup failure exits with
status 1 directly after the connection attempt. -/
theorem use_startup_connection_witness :
    use (fun _ => none) ["py2neo"] .serviceUnavailable =
      [UseEvent.connectAttempt "localhost" "neo4j" none, UseEvent.exitProcess 1] :=
  (use_startup_connection (fun _ => none) ["py2neo"] .serviceUnavailable).2.2 rfl

end Py2neoCLI
